import Mathlib

/-!
# ruuvi_firmware_accel_4: mode controller and sampling cycle

A shallow embedding of `ruuvi_examples/ruuvi_firmware_accel_4/main.c` together with the
constants of `bluetooth_application_config.h`.

* The file-scope statics of `main.c` become the fields of `State`.
* Every call that leaves `main.c` (drivers, timer, BLE stack, encoders, watchdog) appends an
  `Event` to a trace, in program order, with the arguments of the call.
* Values that come back from outside `main.c` (the clock, sensor readings, returned status
  codes) are supplied by the caller of the embedded function (`Extern`, and the two
  `millis()` reads of `change_mode`).
* Macros, types and functions declared in headers that are not part of the two source files
  are parameters collected in `Env`.
* The `NRF_LOG_*` macros write to the log only; they are not traced.
-/

namespace RuuviAccel4

/-! ## Constants of `bluetooth_application_config.h` -/

/-- Line 15: `#define MAIN_LOOP_INTERVAL_RAW 100u`. -/
def MAIN_LOOP_INTERVAL_RAW : Nat := 100

/-- Line 16: `#define ADVERTISING_INTERVAL_RAW 100u`. -/
def ADVERTISING_INTERVAL_RAW : Nat := 100

/-- Line 17: `#define MAIN_LOOP_INTERVAL_URL 500u`. -/
def MAIN_LOOP_INTERVAL_URL : Nat := 500

/-- Line 18: `#define ADVERTISING_INTERVAL_URL 100u`. -/
def ADVERTISING_INTERVAL_URL : Nat := 100

/-- Line 23: `#define URL_BASE_LENGTH 9`. -/
def URL_BASE_LENGTH : Nat := 9

/-- Line 24: `#define URL_DATA_LENGTH 9`. -/
def URL_DATA_LENGTH : Nat := 9

/-- Line 25: the bytes `0x03, 'r', 'u', 'u', '.', 'v', 'i', '/', '#'`. -/
def URL_BASE : List Nat := [0x03, 114, 117, 117, 46, 118, 105, 47, 35]

/-- Line 27: `#define RAW_DATA_LENGTH 24`. -/
def RAW_DATA_LENGTH : Nat := 24

/-- Value of `NRF_SUCCESS` (Nordic SDK). -/
def NRF_SUCCESS : Nat := 0

/-! ## Machine arithmetic -/

/-- Conversion of a mathematical integer to `int32_t` (two's complement wrap). -/
def toInt32 (x : Int) : Int := (x + 2 ^ 31) % 2 ^ 32 - 2 ^ 31

/-- The C expression `a - b` evaluated in `uint64_t`, as in `millis() - debounce`
(`debounce` is a `uint64_t`, so the subtraction is carried out modulo `2 ^ 64`). -/
def sub64 (a b : Nat) : Nat := (a % 2 ^ 64 + (2 ^ 64 - b % 2 ^ 64)) % 2 ^ 64

/-! ## Data -/

/-- A C array of `n` bytes. -/
abbrev Bytes (n : Nat) := { l : List Nat // l.length = n }

/-- The all-zero array of `n` bytes. -/
def Bytes.zero (n : Nat) : Bytes n := ⟨List.replicate n 0, by simp⟩

/-- Modelled from the spec: the acceleration sample type is declared in `lis2dh12.h`, which is
not among the sources; the spec (section 3) gives "a 3-tuple of signed 16-bit axis values" and
`main.c` reads its fields `x`, `y`, `z`. -/
structure acceleration_t where
  x : Int
  y : Int
  z : Int
  deriving DecidableEq, Repr

/-- Modelled from the spec: `lis2dh12_sensor_buffer_t` is declared in `lis2dh12.h`, which is not
among the sources; `main.c` uses only its member `sensor`. -/
structure lis2dh12_sensor_buffer_t where
  sensor : acceleration_t
  deriving DecidableEq, Repr

/-- Modelled from the spec: `ruuvi_sensor_t` is declared in `sensortag.h`, which is not among
the sources; the spec (section 3, SensorReading) lists temperature, pressure, humidity, battery
voltage and the acceleration values. -/
structure ruuvi_sensor_t where
  temperature : Int
  pressure : Nat
  humidity : Nat
  vbat : Nat
  acc : List Int
  deriving DecidableEq, Repr

/-- The file-scope statics of `main.c` (lines 71-81) and the function-scope static `vbat`
(line 207). -/
structure State where
  /-- Static `char url_buffer[URL_BASE_LENGTH + URL_DATA_LENGTH]`, initialised to `URL_BASE`. -/
  url_buffer : Bytes (URL_BASE_LENGTH + URL_DATA_LENGTH)
  /-- Static `uint8_t data_buffer[RAW_DATA_LENGTH]`. -/
  data_buffer : Bytes RAW_DATA_LENGTH
  /-- Static `bool model_plus`: flag for sensors available. -/
  model_plus : Bool
  /-- Static `bool highres`: flag for used mode. -/
  highres : Bool
  /-- Static `uint64_t debounce`: flag for avoiding double presses. -/
  debounce : Nat
  /-- Static `uint16_t acceleration_events`. -/
  acceleration_events : Nat
  /-- Static `ruuvi_sensor_t data`. -/
  data : ruuvi_sensor_t
  /-- Static `size_t count_acc`. -/
  count_acc : Nat
  /-- Static `uint16_t vbat` declared inside `main_timer_handler`. -/
  vbat : Nat
  deriving DecidableEq, Repr

/-- Macros and functions used by `main.c` whose definitions are in headers and libraries that
are not among the sources. -/
structure Env where
  /-- Macro `DEBOUNCE_THRESHOLD` (application_config.h), as the `uint64_t` it is compared with. -/
  DEBOUNCE_THRESHOLD : Nat
  /-- Macro `RUUVITAG_APP_TIMER_PRESCALER` (application_config.h). -/
  RUUVITAG_APP_TIMER_PRESCALER : Nat
  /-- Macro `APP_TIMER_TICKS(MS, PRESCALER)` (Nordic SDK). -/
  APP_TIMER_TICKS : Nat → Nat → Nat
  /-- Macro `LIS2DH12_SAMPLERATE_RAW` (application_config.h). -/
  LIS2DH12_SAMPLERATE_RAW : Nat
  /-- Macro `LIS2DH12_SAMPLERATE_URL` (application_config.h). -/
  LIS2DH12_SAMPLERATE_URL : Nat
  /-- Function `parseSensorData(&data, raw_t, raw_p, raw_h, vbat, acc)` (sensortag.c): the new content
  of `data`. -/
  parseSensorData : ruuvi_sensor_t → Int → Nat → Nat → Nat → List Int → ruuvi_sensor_t
  /-- Function `encodeToRaw4AccelFormat(data_buffer, acceleration, length)` (sensortag.c): the new
  content of the 24-byte buffer. The pointer argument is given as the array it points into,
  starting at the element pointed to. -/
  encodeToRaw4AccelFormat :
    Bytes RAW_DATA_LENGTH → List lis2dh12_sensor_buffer_t → Int → Bytes RAW_DATA_LENGTH
  /-- Function `encodeToUrlDataFromat(url_buffer, base_length, &data)` (sensortag.c): the new content
  of the 18-byte buffer. -/
  encodeToUrlDataFromat :
    Bytes (URL_BASE_LENGTH + URL_DATA_LENGTH) → Nat → ruuvi_sensor_t →
      Bytes (URL_BASE_LENGTH + URL_DATA_LENGTH)

/-- What the collaborators hand back during one run of a handler: sensor readings and the
status codes of the calls whose result `main.c` discards. -/
structure Extern where
  /-- value returned by `bme280_get_temperature()` -/
  bme280_get_temperature : Int
  /-- value returned by `bme280_get_pressure()` -/
  bme280_get_pressure : Nat
  /-- value returned by `bme280_get_humidity()` -/
  bme280_get_humidity : Nat
  /-- value stored by `lis2dh12_get_fifo_sample_number(&count_acc)` -/
  lis2dh12_get_fifo_sample_number : Nat
  /-- samples stored by `lis2dh12_read_samples(buffer, count_acc)`, from `buffer[0]` on -/
  lis2dh12_read_samples : List lis2dh12_sensor_buffer_t
  /-- value stored by `sd_temp_get(&temp)`, in quarter degrees -/
  sd_temp_get : Int
  /-- value returned by `getBattery()` -/
  getBattery : Nat
  /-- status returned by `lis2dh12_set_sample_rate` (discarded) -/
  ret_lis2dh12_set_sample_rate : Nat
  /-- status returned by `app_timer_stop` (discarded) -/
  ret_app_timer_stop : Nat
  /-- status returned by `app_timer_start` (discarded) -/
  ret_app_timer_start : Nat
  /-- status returned by `bluetooth_configure_advertising_interval` (discarded) -/
  ret_bluetooth_configure_advertising_interval : Nat
  /-- status returned by `bluetooth_apply_configuration` (discarded) -/
  ret_bluetooth_apply_configuration : Nat
  /-- status returned by `bluetooth_set_manufacturer_data` (or-ed into a dead local) -/
  ret_bluetooth_set_manufacturer_data : Nat
  /-- status returned by `bluetooth_set_eddystone_url` (or-ed into a dead local) -/
  ret_bluetooth_set_eddystone_url : Nat

/-- Calls that leave `main.c`, with their arguments. -/
inductive Event where
  | lis2dh12_set_sample_rate (rate : Nat)
  | app_timer_stop
  | app_timer_start (ticks : Nat)
  | bluetooth_configure_advertising_interval (interval : Nat)
  | bluetooth_apply_configuration
  | bme280_read_measurements
  | bme280_get_temperature
  | bme280_get_pressure
  | bme280_get_humidity
  | lis2dh12_get_fifo_sample_number
  | lis2dh12_read_samples (count : Nat)
  | sd_temp_get
  | getBattery
  | parseSensorData (raw_t : Int) (raw_p raw_h vbat : Nat) (acc : List Int)
  | encodeToRaw4AccelFormat (data_buffer : Bytes RAW_DATA_LENGTH)
      (acceleration : List lis2dh12_sensor_buffer_t) (length : Int)
  | encodeToUrlDataFromat (url_buffer : Bytes (URL_BASE_LENGTH + URL_DATA_LENGTH))
      (base_length : Nat) (data : ruuvi_sensor_t)
  | bluetooth_set_manufacturer_data (data : Bytes RAW_DATA_LENGTH) (length : Nat)
  | bluetooth_set_eddystone_url (url : Bytes (URL_BASE_LENGTH + URL_DATA_LENGTH)) (length : Nat)
  | watchdog_feed
  deriving DecidableEq, Repr

/-- Outcome of a handler: the statics afterwards and the calls it made. -/
structure Result where
  state : State
  trace : List Event
  deriving DecidableEq, Repr

/-! ## `main.c` -/

/-- An element of `buffer` after `memset(buffer, 0, sizeof(buffer))`. -/
def zeroSample : lis2dh12_sensor_buffer_t := ⟨⟨0, 0, 0⟩⟩

/-- Number of elements of the local `lis2dh12_sensor_buffer_t buffer[32]` (line 169). -/
def BUFFER_ELEMENTS : Nat := 32

/-- Lines 186-193: the loop `for (int i = 0; i < 4; i++)` copying `buffer[i].sensor` into
`acc[3*i]`, `acc[3*i+1]`, `acc[3*i+2]`. -/
def copyAcc (buffer : List lis2dh12_sensor_buffer_t) (acc : List Int) : List Int :=
  (List.range 4).foldl
    (fun a i =>
      let b := buffer.getD i zeroSample
      ((a.set (3 * i) b.sensor.x).set (3 * i + 1) b.sensor.y).set (3 * i + 2) b.sensor.z)
    acc

/-- The locals of `main_timer_handler` after the sensor block (lines 166-203). -/
structure Locals where
  raw_t : Int
  raw_p : Nat
  raw_h : Nat
  buffer : List lis2dh12_sensor_buffer_t
  acc : List Int
  count_acc : Nat
  trace : List Event
  deriving DecidableEq, Repr

/-- Lines 166-203 of `main_timer_handler`: declarations, `memset`, and the `if (model_plus)`
block. `lis2dh12_read_samples` overwrites the leading elements of the zeroed 32-element
`buffer`; `temp *= 25` is `int32_t` arithmetic, taken with two's complement wrap. -/
def readSensors (x : Extern) (s : State) : Locals :=
  -- `int32_t raw_t = 0;` is overwritten on both paths before it is read
  let raw_p : Nat := 0
  let raw_h : Nat := 0
  let buffer : List lis2dh12_sensor_buffer_t := List.replicate BUFFER_ELEMENTS zeroSample
  let acc : List Int := List.replicate 12 0
  if s.model_plus then
    let raw_t := toInt32 x.bme280_get_temperature
    let raw_p := x.bme280_get_pressure % 2 ^ 32
    let raw_h := x.bme280_get_humidity % 2 ^ 32
    let count_acc := x.lis2dh12_get_fifo_sample_number % 2 ^ 32
    let buffer := (x.lis2dh12_read_samples ++ buffer).take BUFFER_ELEMENTS
    let acc := copyAcc buffer acc
    { raw_t := raw_t, raw_p := raw_p, raw_h := raw_h, buffer := buffer, acc := acc,
      count_acc := count_acc,
      trace := [Event.bme280_read_measurements, Event.bme280_get_temperature,
                Event.bme280_get_pressure, Event.bme280_get_humidity,
                Event.lis2dh12_get_fifo_sample_number,
                Event.lis2dh12_read_samples count_acc] }
  else
    let temp := toInt32 x.sd_temp_get
    let temp := toInt32 (temp * 25)
    let raw_t := temp
    { raw_t := raw_t, raw_p := raw_p, raw_h := raw_h, buffer := buffer, acc := acc,
      count_acc := s.count_acc,
      trace := [Event.sd_temp_get] }

/-- Lines 154-159, `updateAdvertisement`: `sizeof(data_buffer)` is `RAW_DATA_LENGTH` and
`sizeof(url_buffer)` is `URL_BASE_LENGTH + URL_DATA_LENGTH`; the status is or-ed into the local
`err_code`, which is never read. -/
def updateAdvertisement (s : State) : List Event :=
  if s.highres then
    [Event.bluetooth_set_manufacturer_data s.data_buffer RAW_DATA_LENGTH]
  else
    [Event.bluetooth_set_eddystone_url s.url_buffer (URL_BASE_LENGTH + URL_DATA_LENGTH)]

/-- Lines 164-235, `main_timer_handler`. -/
def main_timer_handler (env : Env) (x : Extern) (s : State) : Result :=
  let l := readSensors x s
  -- vbat = getBattery();
  let vbat := x.getBattery % 2 ^ 16
  -- parseSensorData(&data, raw_t, raw_p, raw_h, vbat, acc);
  let data := env.parseSensorData s.data l.raw_t l.raw_p l.raw_h vbat l.acc
  let s1 : State := { s with count_acc := l.count_acc, vbat := vbat, data := data }
  let t1 := l.trace ++ [Event.getBattery, Event.parseSensorData l.raw_t l.raw_p l.raw_h vbat l.acc]
  if s1.highres then
    -- int length_buffer = sizeof(buffer) / sizeof(buffer[0]);
    let length_buffer : Int := (BUFFER_ELEMENTS : Int)
    -- encodeToRaw4AccelFormat(data_buffer, &buffer->sensor, length_buffer);
    let s2 : State :=
      { s1 with data_buffer := env.encodeToRaw4AccelFormat s1.data_buffer l.buffer length_buffer }
    { state := s2,
      trace := t1 ++ [Event.encodeToRaw4AccelFormat s1.data_buffer l.buffer length_buffer]
                  ++ updateAdvertisement s2 ++ [Event.watchdog_feed] }
  else
    -- encodeToUrlDataFromat(url_buffer, URL_BASE_LENGTH, &data);
    let s2 : State :=
      { s1 with url_buffer := env.encodeToUrlDataFromat s1.url_buffer URL_BASE_LENGTH s1.data }
    { state := s2,
      trace := t1 ++ [Event.encodeToUrlDataFromat s1.url_buffer URL_BASE_LENGTH s1.data]
                  ++ updateAdvertisement s2 ++ [Event.watchdog_feed] }

/-- Lines 93-115 of `change_mode`: the `if (model_plus)` block, run after `highres` has been
flipped. -/
def reconfigure (env : Env) (s : State) : List Event :=
  if s.model_plus then
    if s.highres then
      [Event.lis2dh12_set_sample_rate env.LIS2DH12_SAMPLERATE_RAW,
       Event.app_timer_stop,
       Event.app_timer_start
         (env.APP_TIMER_TICKS MAIN_LOOP_INTERVAL_RAW env.RUUVITAG_APP_TIMER_PRESCALER),
       Event.bluetooth_configure_advertising_interval ADVERTISING_INTERVAL_RAW,
       Event.bluetooth_apply_configuration]
    else
      [Event.lis2dh12_set_sample_rate env.LIS2DH12_SAMPLERATE_URL,
       Event.app_timer_stop,
       Event.app_timer_start
         (env.APP_TIMER_TICKS MAIN_LOOP_INTERVAL_URL env.RUUVITAG_APP_TIMER_PRESCALER),
       Event.bluetooth_configure_advertising_interval ADVERTISING_INTERVAL_URL,
       Event.bluetooth_apply_configuration]
  else []

/-- Lines 87-118, `change_mode`. `millis()` is read twice: `now` is the value compared with
`debounce` (line 90) and `now2` the value stored (line 91). -/
def change_mode (env : Env) (now now2 : Nat) (x : Extern) (s : State) : Result :=
  -- if ((millis() - debounce) < DEBOUNCE_THRESHOLD) { return; }
  if sub64 now s.debounce < env.DEBOUNCE_THRESHOLD then
    { state := s, trace := [] }
  else
    -- debounce = millis();
    let s1 : State := { s with debounce := now2 % 2 ^ 64 }
    -- highres = !highres;
    let s2 : State := { s1 with highres := !s1.highres }
    let t := reconfigure env s2
    -- main_timer_handler(NULL);
    let r := main_timer_handler env x s2
    { state := r.state, trace := t ++ r.trace }

/-- Lines 246-256, `lis2dh12_int2_handler`: `acceleration_events++` on a `uint16_t`; returns
`NRF_SUCCESS`. -/
def lis2dh12_int2_handler (s : State) : State × Nat :=
  ({ s with acceleration_events := (s.acceleration_events + 1) % 2 ^ 16 }, NRF_SUCCESS)

/-- The statics as initialised at lines 71-81, with `model_plus` as `main` sets it at
line 265. -/
def initState (model_plus : Bool) : State :=
  { url_buffer := ⟨URL_BASE ++ List.replicate URL_DATA_LENGTH 0, by decide⟩,
    data_buffer := Bytes.zero RAW_DATA_LENGTH,
    model_plus := model_plus,
    highres := true,
    debounce := 0,
    acceleration_events := 0,
    data := ⟨0, 0, 0, 0, []⟩,
    count_acc := 0,
    vbat := 0 }

/-! ## Reference definitions taken from the specification -/

/-- Reference function written from the words of the specification (section 4.1,
`toggle(now)`): "if `now - lastToggle < DEBOUNCE_THRESHOLD`, no-op, returns none (request
ignored). Otherwise flips the mode, records `lastToggle = now`, returns the new mode."
The state is the pair (mode is `HighRes`, `lastToggle`); timestamps are the unsigned 64-bit
values of the code and their difference is taken in that type. -/
def toggle (threshold now : Nat) (st : Bool × Nat) : (Bool × Nat) × Option Bool :=
  if sub64 now st.2 < threshold then (st, none)
  else ((!st.1, now), some (!st.1))

/-- Specification section 4.1, `currentSampleIntervalMs()`, keyed by mode (`true` is
`HighRes`), with the values the claims name. -/
def currentSampleIntervalMs (highres : Bool) : Nat :=
  if highres then MAIN_LOOP_INTERVAL_RAW else MAIN_LOOP_INTERVAL_URL

/-- Specification section 4.1, `currentAdvertisingIntervalMs()`, keyed by mode (`true` is
`HighRes`), with the values the claims name. -/
def currentAdvertisingIntervalMs (highres : Bool) : Nat :=
  if highres then ADVERTISING_INTERVAL_RAW else ADVERTISING_INTERVAL_URL

/-! ## Observations on traces -/

/-- Requests to the main sampling timer and for the advertising interval. -/
def Event.isTimerOrInterval : Event → Bool
  | .app_timer_stop => true
  | .app_timer_start _ => true
  | .bluetooth_configure_advertising_interval _ => true
  | _ => false

/-- Payloads handed to the broadcast sink. -/
def Event.isPayload : Event → Bool
  | .bluetooth_set_manufacturer_data _ _ => true
  | .bluetooth_set_eddystone_url _ _ => true
  | _ => false

/-- Calls of one of the two encoders. -/
def Event.isEncode : Event → Bool
  | .encodeToRaw4AccelFormat _ _ _ => true
  | .encodeToUrlDataFromat _ _ _ => true
  | _ => false

/-- The watchdog feed. -/
def Event.isFeed : Event → Bool
  | .watchdog_feed => true
  | _ => false

/-- Length argument of a payload request. -/
def Event.payloadLength : Event → Option Nat
  | .bluetooth_set_manufacturer_data _ n => some n
  | .bluetooth_set_eddystone_url _ n => some n
  | _ => none

/-- The steps of the encode and broadcast part of a cycle, without their arguments. -/
inductive Step where
  | encodeRaw4Accel
  | encodeUrl
  | sendManufacturerData
  | sendEddystoneUrl
  | feed
  deriving DecidableEq, Repr

/-- The encode or broadcast step an event stands for, if any. -/
def Event.step : Event → Option Step
  | .encodeToRaw4AccelFormat _ _ _ => some Step.encodeRaw4Accel
  | .encodeToUrlDataFromat _ _ _ => some Step.encodeUrl
  | .bluetooth_set_manufacturer_data _ _ => some Step.sendManufacturerData
  | .bluetooth_set_eddystone_url _ _ => some Step.sendEddystoneUrl
  | .watchdog_feed => some Step.feed
  | _ => none

/-- For each call of the Raw4Accel encoder in a trace: the sample its pointer argument points
to and its count argument. -/
def raw4AccelArgs : List Event → List (lis2dh12_sensor_buffer_t × Int)
  | [] => []
  | Event.encodeToRaw4AccelFormat _ acceleration length :: es =>
      (acceleration.headD zeroSample, length) :: raw4AccelArgs es
  | _ :: es => raw4AccelArgs es

/-! ## Concrete inputs -/

/-- An environment for evaluation: a debounce threshold of 250 ms, a timer macro that returns
the interval itself, and library functions that store their inputs unchanged. -/
def env250 : Env :=
  { DEBOUNCE_THRESHOLD := 250,
    RUUVITAG_APP_TIMER_PRESCALER := 0,
    APP_TIMER_TICKS := fun ms _ => ms,
    LIS2DH12_SAMPLERATE_RAW := 1,
    LIS2DH12_SAMPLERATE_URL := 0,
    parseSensorData := fun _ raw_t raw_p raw_h vbat acc => ⟨raw_t, raw_p, raw_h, vbat, acc⟩,
    encodeToRaw4AccelFormat := fun b _ _ => b,
    encodeToUrlDataFromat := fun b _ _ => b }

/-- One accelerometer sample. -/
def sample (x y z : Int) : lis2dh12_sensor_buffer_t := ⟨⟨x, y, z⟩⟩

/-- Collaborator values for evaluation: 21.50 degrees, 101325 Pa, humidity 4500, a 3000 mV
battery, 90 quarter degrees on the die, and a FIFO holding the four samples
(1,2,3), (4,5,6), (7,8,9), (10,11,12); every call reports success. -/
def fifo4 : Extern :=
  { bme280_get_temperature := 2150,
    bme280_get_pressure := 101325,
    bme280_get_humidity := 4500,
    lis2dh12_get_fifo_sample_number := 4,
    lis2dh12_read_samples := [sample 1 2 3, sample 4 5 6, sample 7 8 9, sample 10 11 12],
    sd_temp_get := 90,
    getBattery := 3000,
    ret_lis2dh12_set_sample_rate := 0,
    ret_app_timer_stop := 0,
    ret_app_timer_start := 0,
    ret_bluetooth_configure_advertising_interval := 0,
    ret_bluetooth_apply_configuration := 0,
    ret_bluetooth_set_manufacturer_data := 0,
    ret_bluetooth_set_eddystone_url := 0 }

/-- The statics after boot on full hardware and one accepted button press at 5000 ms:
`LowPower` mode, `debounce = 5000`. -/
def afterPress5000 : State := (change_mode env250 5000 5000 fifo4 (initState true)).state

/-! ## Arithmetic facts -/

theorem sub64_of_le (a b : Nat) (hb : b ≤ a) (ha : a < 2 ^ 64) : sub64 a b = a - b := by
  unfold sub64
  have hb' : b < 2 ^ 64 := lt_of_le_of_lt hb ha
  rw [Nat.mod_eq_of_lt ha, Nat.mod_eq_of_lt hb']
  have h : a + (2 ^ 64 - b) = (a - b) + 2 ^ 64 := by omega
  rw [h, Nat.add_mod_right, Nat.mod_eq_of_lt (by omega)]

theorem sub64_mod_right (a b : Nat) : sub64 a (b % 2 ^ 64) = sub64 a b := by
  unfold sub64
  rw [Nat.mod_mod]

theorem toInt32_of_range (x : Int) (h1 : -(2 ^ 31) ≤ x) (h2 : x < 2 ^ 31) : toInt32 x = x := by
  unfold toInt32
  rw [Int.emod_eq_of_lt (by omega) (by omega)]
  omega

/-! ## Basic facts about the handlers -/

theorem main_timer_handler_highres (env : Env) (x : Extern) (s : State) :
    (main_timer_handler env x s).state.highres = s.highres := by
  unfold main_timer_handler
  cases h : s.highres <;> simp [h]

theorem main_timer_handler_debounce (env : Env) (x : Extern) (s : State) :
    (main_timer_handler env x s).state.debounce = s.debounce := by
  unfold main_timer_handler
  cases h : s.highres <;> simp [h]

theorem change_mode_ignored (env : Env) (now now2 : Nat) (x : Extern) (s : State)
    (h : sub64 now s.debounce < env.DEBOUNCE_THRESHOLD) :
    change_mode env now now2 x s = { state := s, trace := [] } := by
  unfold change_mode
  simp [h]

theorem change_mode_accepted (env : Env) (now now2 : Nat) (x : Extern) (s : State)
    (h : ¬ sub64 now s.debounce < env.DEBOUNCE_THRESHOLD) :
    change_mode env now now2 x s =
      { state := (main_timer_handler env x
          { s with debounce := now2 % 2 ^ 64, highres := !s.highres }).state,
        trace := reconfigure env { s with debounce := now2 % 2 ^ 64, highres := !s.highres } ++
          (main_timer_handler env x
            { s with debounce := now2 % 2 ^ 64, highres := !s.highres }).trace } := by
  unfold change_mode
  simp [h]

/-! ## Mode controller: debounce and toggle (C1, C2, C3) -/

/-- C1: `change_mode` acts on the pair (`highres`, `debounce`) as the reference function
`toggle` of the specification. For every starting state, every collaborator behaviour (sensor
values and returned statuses) and every 64-bit clock value `now` returned by both `millis()`
reads: if `now - debounce < DEBOUNCE_THRESHOLD` (the unsigned 64-bit difference of the code)
both `highres` and `debounce` are unchanged, otherwise `highres` is negated and `debounce`
becomes `now`, whatever `model_plus` is. Whenever the clock has not run backwards
(`debounce ≤ now`) that difference is the ordinary `now - debounce`. -/
theorem change_mode_implements_toggle (env : Env) (x : Extern) (s : State) (now : Nat)
    (hnow : now < 2 ^ 64) :
    ((change_mode env now now x s).state.highres, (change_mode env now now x s).state.debounce)
        = (toggle env.DEBOUNCE_THRESHOLD now (s.highres, s.debounce)).1
    ∧ (sub64 now s.debounce < env.DEBOUNCE_THRESHOLD →
        (change_mode env now now x s).state.highres = s.highres ∧
        (change_mode env now now x s).state.debounce = s.debounce)
    ∧ (¬ sub64 now s.debounce < env.DEBOUNCE_THRESHOLD →
        (change_mode env now now x s).state.highres = (!s.highres) ∧
        (change_mode env now now x s).state.debounce = now)
    ∧ (s.debounce ≤ now → sub64 now s.debounce = now - s.debounce) := by
  refine ⟨?_, ?_, ?_, fun hle => sub64_of_le now s.debounce hle hnow⟩
  · by_cases h : sub64 now s.debounce < env.DEBOUNCE_THRESHOLD
    · rw [change_mode_ignored env now now x s h]
      simp [toggle, h]
    · rw [change_mode_accepted env now now x s h]
      simpa [toggle, h, main_timer_handler_highres, main_timer_handler_debounce] using hnow
  · intro h
    rw [change_mode_ignored env now now x s h]
    exact ⟨rfl, rfl⟩
  · intro h
    rw [change_mode_accepted env now now x s h]
    simpa [main_timer_handler_highres, main_timer_handler_debounce] using hnow

/-- Witness for C1: a press at 5000 ms after boot on full hardware. -/
theorem change_mode_implements_toggle_witness :
    5000 < 2 ^ 64 ∧
    (((change_mode env250 5000 5000 fifo4 (initState true)).state.highres,
      (change_mode env250 5000 5000 fifo4 (initState true)).state.debounce)
        = (toggle env250.DEBOUNCE_THRESHOLD 5000
            ((initState true).highres, (initState true).debounce)).1
    ∧ (sub64 5000 (initState true).debounce < env250.DEBOUNCE_THRESHOLD →
        (change_mode env250 5000 5000 fifo4 (initState true)).state.highres
          = (initState true).highres ∧
        (change_mode env250 5000 5000 fifo4 (initState true)).state.debounce
          = (initState true).debounce)
    ∧ (¬ sub64 5000 (initState true).debounce < env250.DEBOUNCE_THRESHOLD →
        (change_mode env250 5000 5000 fifo4 (initState true)).state.highres
          = (!(initState true).highres) ∧
        (change_mode env250 5000 5000 fifo4 (initState true)).state.debounce = 5000)
    ∧ ((initState true).debounce ≤ 5000 →
        sub64 5000 (initState true).debounce = 5000 - (initState true).debounce)) :=
  ⟨by decide, change_mode_implements_toggle env250 fifo4 (initState true) 5000 (by decide)⟩

/-- C2 as stated fails: after an accepted press at 5000 ms, a press at 5200 ms is ignored and a
press at 5300 ms, only 100 ms later, is accepted and flips the mode. -/
theorem second_toggle_within_window_counterexample :
    5200 < 5300 ∧ 5300 - 5200 < env250.DEBOUNCE_THRESHOLD ∧
    (change_mode env250 5300 5300 fifo4
        (change_mode env250 5200 5200 fifo4 afterPress5000).state).state.highres
      ≠ (change_mode env250 5200 5200 fifo4 afterPress5000).state.highres := by
  decide

/-- C2 (amended): for all 64-bit timestamps `t1 < t2` with `t2 - t1 < DEBOUNCE_THRESHOLD`, if
the toggle at `t1` is accepted then the toggle at `t2` is ignored: it changes no static, makes
no call, and the mode after `t2` is the mode after `t1`. If the toggle at `t1` is itself
ignored, `debounce` still holds the time of the last accepted toggle, and the mode after `t2`
equals the mode after `t1` exactly when `t2 - debounce < DEBOUNCE_THRESHOLD`. -/
theorem second_toggle_within_window_ignored (env : Env) (x1 x2 : Extern) (s : State)
    (t1 t2 : Nat) (h12 : t1 < t2) (hwin : t2 - t1 < env.DEBOUNCE_THRESHOLD)
    (ht2 : t2 < 2 ^ 64) :
    (¬ sub64 t1 s.debounce < env.DEBOUNCE_THRESHOLD →
      change_mode env t2 t2 x2 (change_mode env t1 t1 x1 s).state
          = { state := (change_mode env t1 t1 x1 s).state, trace := [] } ∧
      (change_mode env t2 t2 x2 (change_mode env t1 t1 x1 s).state).state.highres
          = (change_mode env t1 t1 x1 s).state.highres)
    ∧ (sub64 t1 s.debounce < env.DEBOUNCE_THRESHOLD →
      ((change_mode env t2 t2 x2 (change_mode env t1 t1 x1 s).state).state.highres
          = (change_mode env t1 t1 x1 s).state.highres
        ↔ sub64 t2 s.debounce < env.DEBOUNCE_THRESHOLD)) := by
  constructor
  · intro hacc
    have hd : (change_mode env t1 t1 x1 s).state.debounce = t1 % 2 ^ 64 := by
      rw [change_mode_accepted env t1 t1 x1 s hacc]
      simp [main_timer_handler_debounce]
    have hig : sub64 t2 (change_mode env t1 t1 x1 s).state.debounce
        < env.DEBOUNCE_THRESHOLD := by
      rw [hd, sub64_mod_right, sub64_of_le t2 t1 (le_of_lt h12) ht2]
      exact hwin
    rw [change_mode_ignored env t2 t2 x2 _ hig]
    exact ⟨rfl, rfl⟩
  · intro hig1
    rw [change_mode_ignored env t1 t1 x1 s hig1]
    by_cases h2 : sub64 t2 s.debounce < env.DEBOUNCE_THRESHOLD
    · rw [change_mode_ignored env t2 t2 x2 s h2]
      simp [h2]
    · rw [change_mode_accepted env t2 t2 x2 s h2]
      simp [h2, main_timer_handler_highres]

/-- Witness for C2 (amended): accepted press at 5000 ms, second press at 5100 ms. -/
theorem second_toggle_within_window_ignored_witness :
    5000 < 5100 ∧ 5100 - 5000 < env250.DEBOUNCE_THRESHOLD ∧ 5100 < 2 ^ 64 ∧
    ¬ sub64 5000 (initState true).debounce < env250.DEBOUNCE_THRESHOLD ∧
    (change_mode env250 5100 5100 fifo4
        (change_mode env250 5000 5000 fifo4 (initState true)).state).state.highres
      = (change_mode env250 5000 5000 fifo4 (initState true)).state.highres :=
  ⟨by decide, by decide, by decide, by decide,
    ((second_toggle_within_window_ignored env250 fifo4 fifo4 (initState true) 5000 5100
      (by decide) (by decide) (by decide)).1 (by decide)).2⟩

/-- C3 as stated fails: after an accepted press at 5000 ms, a press at 5100 ms is ignored and a
press at 5400 ms, 300 ms later, is accepted; the mode ends up flipped once. -/
theorem two_toggles_apart_counterexample :
    env250.DEBOUNCE_THRESHOLD ≤ 5400 - 5100 ∧
    (change_mode env250 5400 5400 fifo4
        (change_mode env250 5100 5100 fifo4 afterPress5000).state).state.highres
      ≠ afterPress5000.highres := by
  decide

/-- C3 (amended): for all timestamps `t1`, `t2` (with `t2` a 64-bit value) and
`t2 - t1 ≥ DEBOUNCE_THRESHOLD`, if the toggle at `t1` is accepted then so is the toggle at
`t2`, and `highres` is back at the value it had before the toggle at `t1`. If the toggle at
`t1` is ignored, `highres` is back at its original value exactly when the toggle at `t2` is
ignored as well (`t2 - debounce < DEBOUNCE_THRESHOLD`). -/
theorem two_toggles_apart_restore (env : Env) (x1 x2 : Extern) (s : State) (t1 t2 : Nat)
    (hwin : env.DEBOUNCE_THRESHOLD ≤ t2 - t1) (ht2 : t2 < 2 ^ 64) :
    (¬ sub64 t1 s.debounce < env.DEBOUNCE_THRESHOLD →
      (change_mode env t2 t2 x2 (change_mode env t1 t1 x1 s).state).state.highres = s.highres)
    ∧ (sub64 t1 s.debounce < env.DEBOUNCE_THRESHOLD →
      ((change_mode env t2 t2 x2 (change_mode env t1 t1 x1 s).state).state.highres = s.highres
        ↔ sub64 t2 s.debounce < env.DEBOUNCE_THRESHOLD)) := by
  constructor
  · intro hacc
    have hd : (change_mode env t1 t1 x1 s).state.debounce = t1 % 2 ^ 64 := by
      rw [change_mode_accepted env t1 t1 x1 s hacc]
      simp [main_timer_handler_debounce]
    have hh : (change_mode env t1 t1 x1 s).state.highres = !s.highres := by
      rw [change_mode_accepted env t1 t1 x1 s hacc]
      simp [main_timer_handler_highres]
    have hacc2 : ¬ sub64 t2 (change_mode env t1 t1 x1 s).state.debounce
        < env.DEBOUNCE_THRESHOLD := by
      rw [hd, sub64_mod_right]
      by_cases hle : t1 ≤ t2
      · rw [sub64_of_le t2 t1 hle ht2]
        omega
      · have h0 : env.DEBOUNCE_THRESHOLD = 0 := by omega
        rw [h0]
        exact Nat.not_lt_zero _
    rw [change_mode_accepted env t2 t2 x2 _ hacc2]
    simp [main_timer_handler_highres, hh]
  · intro hig1
    rw [change_mode_ignored env t1 t1 x1 s hig1]
    by_cases h2 : sub64 t2 s.debounce < env.DEBOUNCE_THRESHOLD
    · rw [change_mode_ignored env t2 t2 x2 s h2]
      simp [h2]
    · rw [change_mode_accepted env t2 t2 x2 s h2]
      simp [h2, main_timer_handler_highres]

/-- Witness for C3 (amended): accepted presses at 5000 ms and 5300 ms. -/
theorem two_toggles_apart_restore_witness :
    env250.DEBOUNCE_THRESHOLD ≤ 5300 - 5000 ∧ 5300 < 2 ^ 64 ∧
    ¬ sub64 5000 (initState true).debounce < env250.DEBOUNCE_THRESHOLD ∧
    (change_mode env250 5300 5300 fifo4
        (change_mode env250 5000 5000 fifo4 (initState true)).state).state.highres
      = (initState true).highres :=
  ⟨by decide, by decide, by decide,
    (two_toggles_apart_restore env250 fifo4 fifo4 (initState true) 5000 5300
      (by decide) (by decide)).1 (by decide)⟩

/-! ## Mode controller: the transition (C4, C5) -/

theorem main_timer_handler_no_timer_requests (env : Env) (x : Extern) (s : State) :
    (main_timer_handler env x s).trace.filter Event.isTimerOrInterval = [] := by
  unfold main_timer_handler readSensors updateAdvertisement
  cases hm : s.model_plus <;> cases hh : s.highres <;>
    simp [hm, hh, Event.isTimerOrInterval]

theorem main_timer_handler_payloads (env : Env) (x : Extern) (s : State) :
    (main_timer_handler env x s).trace.filter Event.isPayload
      = [if s.highres then
            Event.bluetooth_set_manufacturer_data
              (main_timer_handler env x s).state.data_buffer RAW_DATA_LENGTH
          else
            Event.bluetooth_set_eddystone_url
              (main_timer_handler env x s).state.url_buffer
              (URL_BASE_LENGTH + URL_DATA_LENGTH)] := by
  unfold main_timer_handler readSensors updateAdvertisement
  cases hm : s.model_plus <;> cases hh : s.highres <;>
    simp [hm, hh, Event.isPayload]

theorem reconfigure_no_payloads (env : Env) (s : State) :
    (reconfigure env s).filter Event.isPayload = [] := by
  unfold reconfigure
  cases hm : s.model_plus <;> cases hh : s.highres <;> simp [Event.isPayload]

/-- C4 as stated fails: on reduced hardware (`model_plus` false) an accepted press at 5000 ms
stops no timer, starts no timer and requests no advertising interval. -/
theorem transition_hook_counterexample :
    (initState false).model_plus = false ∧
    ¬ sub64 5000 (initState false).debounce < env250.DEBOUNCE_THRESHOLD ∧
    (change_mode env250 5000 5000 fifo4 (initState false)).state.highres = false ∧
    (change_mode env250 5000 5000 fifo4 (initState false)).trace.filter Event.isTimerOrInterval
      = [] := by
  decide

/-- C4 (amended): an accepted toggle with `model_plus` set makes exactly three requests to the
timer and for the advertising interval, in this order: stop the main timer, start it with the
tick count of the new mode's sampling interval (`MAIN_LOOP_INTERVAL_RAW` for HighRes,
`MAIN_LOOP_INTERVAL_URL` for LowPower), request the new mode's advertising interval
(`ADVERTISING_INTERVAL_RAW` or `ADVERTISING_INTERVAL_URL`). With `model_plus` clear an
accepted toggle makes none of these requests. -/
theorem transition_hook (env : Env) (now now2 : Nat) (x : Extern) (s : State)
    (hacc : ¬ sub64 now s.debounce < env.DEBOUNCE_THRESHOLD) :
    (change_mode env now now2 x s).state.highres = (!s.highres) ∧
    (change_mode env now now2 x s).trace.filter Event.isTimerOrInterval
      = if s.model_plus then
          [Event.app_timer_stop,
           Event.app_timer_start
             (env.APP_TIMER_TICKS (currentSampleIntervalMs (!s.highres))
               env.RUUVITAG_APP_TIMER_PRESCALER),
           Event.bluetooth_configure_advertising_interval
             (currentAdvertisingIntervalMs (!s.highres))]
        else [] := by
  rw [change_mode_accepted env now now2 x s hacc]
  refine ⟨by simp [main_timer_handler_highres], ?_⟩
  simp only [List.filter_append, main_timer_handler_no_timer_requests, List.append_nil]
  unfold reconfigure currentSampleIntervalMs currentAdvertisingIntervalMs
  cases hm : s.model_plus <;> cases hh : s.highres <;>
    simp [Event.isTimerOrInterval]

/-- Witness for C4 (amended): a press at 5000 ms after boot on full hardware switches to
LowPower and asks for the 500 ms sampling interval and the 100 ms advertising interval. -/
theorem transition_hook_witness :
    ¬ sub64 5000 (initState true).debounce < env250.DEBOUNCE_THRESHOLD ∧
    (change_mode env250 5000 5000 fifo4 (initState true)).trace.filter Event.isTimerOrInterval
      = [Event.app_timer_stop, Event.app_timer_start 500,
         Event.bluetooth_configure_advertising_interval 100] :=
  ⟨by decide, (transition_hook env250 5000 5000 fifo4 (initState true) (by decide)).2⟩

/-- C5: an accepted toggle is the reconfiguration block followed by one run of
`main_timer_handler` on the statics with the mode already flipped: its final statics and its
calls are those of that run, the reconfiguration block hands no payload to the sink, so the
toggle issues exactly one payload request, of the new mode's shape. An ignored toggle leaves
the statics as they are and makes no call at all. -/
theorem toggle_forces_one_cycle (env : Env) (now now2 : Nat) (x : Extern) (s : State) :
    (¬ sub64 now s.debounce < env.DEBOUNCE_THRESHOLD →
      (change_mode env now now2 x s).state
        = (main_timer_handler env x
            { s with debounce := now2 % 2 ^ 64, highres := !s.highres }).state ∧
      (change_mode env now now2 x s).trace
        = reconfigure env { s with debounce := now2 % 2 ^ 64, highres := !s.highres } ++
          (main_timer_handler env x
            { s with debounce := now2 % 2 ^ 64, highres := !s.highres }).trace ∧
      (reconfigure env { s with debounce := now2 % 2 ^ 64, highres := !s.highres }).filterMap
          Event.step = [] ∧
      (change_mode env now now2 x s).trace.filter Event.isPayload
        = [if !s.highres then
              Event.bluetooth_set_manufacturer_data
                (change_mode env now now2 x s).state.data_buffer RAW_DATA_LENGTH
            else
              Event.bluetooth_set_eddystone_url
                (change_mode env now now2 x s).state.url_buffer
                (URL_BASE_LENGTH + URL_DATA_LENGTH)] ∧
      (change_mode env now now2 x s).trace.count Event.watchdog_feed = 1)
    ∧ (sub64 now s.debounce < env.DEBOUNCE_THRESHOLD →
      (change_mode env now now2 x s).state = s ∧
      (change_mode env now now2 x s).trace = []) := by
  constructor
  · intro hacc
    rw [change_mode_accepted env now now2 x s hacc]
    refine ⟨rfl, rfl, ?_, ?_, ?_⟩
    · unfold reconfigure
      cases hm : s.model_plus <;> cases hh : s.highres <;> simp [Event.step]
    · simp only [List.filter_append, reconfigure_no_payloads, List.nil_append,
        main_timer_handler_payloads]
    · unfold reconfigure main_timer_handler readSensors updateAdvertisement
      cases hm : s.model_plus <;> cases hh : s.highres <;> simp [hm, hh]
  · intro hig
    rw [change_mode_ignored env now now2 x s hig]
    exact ⟨rfl, rfl⟩

/-- Witness for C5: the accepted press at 5000 ms after boot issues one Eddystone URL payload;
a press 100 ms later is ignored and makes no call. -/
theorem toggle_forces_one_cycle_witness :
    ¬ sub64 5000 (initState true).debounce < env250.DEBOUNCE_THRESHOLD ∧
    (change_mode env250 5000 5000 fifo4 (initState true)).trace.filter Event.isPayload
      = [Event.bluetooth_set_eddystone_url
          (change_mode env250 5000 5000 fifo4 (initState true)).state.url_buffer
          (URL_BASE_LENGTH + URL_DATA_LENGTH)] ∧
    sub64 5100 afterPress5000.debounce < env250.DEBOUNCE_THRESHOLD ∧
    (change_mode env250 5100 5100 fifo4 afterPress5000).trace = [] :=
  ⟨by decide,
    ((toggle_forces_one_cycle env250 5000 5000 fifo4 (initState true)).1 (by decide)).2.2.2.1,
    by decide,
    ((toggle_forces_one_cycle env250 5100 5100 fifo4 afterPress5000).2 (by decide)).2⟩

/-! ## Sampling cycle (C6 - C10) -/

/-- C6: every run of `main_timer_handler` calls one encoder and then hands one payload to the
sink, both chosen by `highres`. In HighRes the Raw4Accel encoder is run on `data_buffer` and
`data_buffer`, as the encoder left it, is sent as manufacturer data with length
`RAW_DATA_LENGTH = 24`; in LowPower the URL encoder is run on `url_buffer` and `url_buffer`, as
the encoder left it, is sent as an Eddystone URL with length
`URL_BASE_LENGTH + URL_DATA_LENGTH = 18`. No payload request of the run carries another
length than the one of its mode. -/
theorem cycle_one_payload (env : Env) (x : Extern) (s : State) :
    (main_timer_handler env x s).trace.filter (fun e => e.isEncode || e.isPayload)
      = (if s.highres then
          [Event.encodeToRaw4AccelFormat s.data_buffer (readSensors x s).buffer 32,
           Event.bluetooth_set_manufacturer_data
             (env.encodeToRaw4AccelFormat s.data_buffer (readSensors x s).buffer 32)
             RAW_DATA_LENGTH]
        else
          [Event.encodeToUrlDataFromat s.url_buffer URL_BASE_LENGTH
             (main_timer_handler env x s).state.data,
           Event.bluetooth_set_eddystone_url
             (env.encodeToUrlDataFromat s.url_buffer URL_BASE_LENGTH
               (main_timer_handler env x s).state.data)
             (URL_BASE_LENGTH + URL_DATA_LENGTH)])
    ∧ (main_timer_handler env x s).state.data_buffer
        = (if s.highres then
            env.encodeToRaw4AccelFormat s.data_buffer (readSensors x s).buffer 32
          else s.data_buffer)
    ∧ (main_timer_handler env x s).state.url_buffer
        = (if s.highres then s.url_buffer
          else env.encodeToUrlDataFromat s.url_buffer URL_BASE_LENGTH
            (main_timer_handler env x s).state.data)
    ∧ RAW_DATA_LENGTH = 24 ∧ URL_BASE_LENGTH + URL_DATA_LENGTH = 18
    ∧ ((main_timer_handler env x s).trace.filter Event.isPayload).map Event.payloadLength
        = [some (if s.highres then 24 else 18)] := by
  unfold main_timer_handler readSensors updateAdvertisement
  cases hm : s.model_plus <;> cases hh : s.highres <;>
    simp [hm, hh, Event.isEncode, Event.isPayload, Event.payloadLength, RAW_DATA_LENGTH,
      URL_BASE_LENGTH, URL_DATA_LENGTH, BUFFER_ELEMENTS]

/-- C7 as stated fails: with the FIFO reporting and holding the 4 samples (1,2,3), (4,5,6),
(7,8,9), (10,11,12), a HighRes cycle stores 4 in `count_acc` and calls the Raw4Accel encoder
with the sample (1,2,3) and the count 32, not 4. -/
theorem raw4accel_count_counterexample :
    (initState true).highres = true ∧
    fifo4.lis2dh12_get_fifo_sample_number = 4 ∧
    fifo4.lis2dh12_read_samples = [sample 1 2 3, sample 4 5 6, sample 7 8 9, sample 10 11 12] ∧
    (main_timer_handler env250 fifo4 (initState true)).state.count_acc = 4 ∧
    raw4AccelArgs (main_timer_handler env250 fifo4 (initState true)).trace
      = [(sample 1 2 3, 32)] ∧
    raw4AccelArgs (main_timer_handler env250 fifo4 (initState true)).trace
      ≠ [(sample 1 2 3, 4)] := by
  decide

/-- C7 (amended): in every HighRes cycle the Raw4Accel encoder is called exactly once, with a
pointer to the first element of the 32-element sample buffer of the cycle and with the count
32, the number of elements of that buffer, whatever number of samples the FIFO reported
(`count_acc`). The first element is the first sample the driver read from the FIFO in this
cycle when `model_plus` is set and the driver stored one, and the all-zero sample
otherwise. -/
theorem raw4accel_args (env : Env) (x : Extern) (s : State) (hh : s.highres = true) :
    raw4AccelArgs (main_timer_handler env x s).trace
      = [(if s.model_plus then x.lis2dh12_read_samples.headD zeroSample else zeroSample, 32)]
    ∧ (readSensors x s).buffer.length = 32
    ∧ (main_timer_handler env x s).state.count_acc
      = (if s.model_plus then x.lis2dh12_get_fifo_sample_number % 2 ^ 32 else s.count_acc) := by
  unfold main_timer_handler readSensors updateAdvertisement
  cases hm : s.model_plus
  · simp [hm, hh, raw4AccelArgs, BUFFER_ELEMENTS, zeroSample]
  · cases hs : x.lis2dh12_read_samples <;>
      simp [hm, hh, hs, raw4AccelArgs, BUFFER_ELEMENTS, zeroSample]

/-- Witness for C7 (amended): the FIFO with the four samples of the scenario. -/
theorem raw4accel_args_witness :
    (initState true).highres = true ∧
    raw4AccelArgs (main_timer_handler env250 fifo4 (initState true)).trace
      = [(sample 1 2 3, 32)] :=
  ⟨rfl, (raw4accel_args env250 fifo4 (initState true) rfl).1⟩

/-- C8: with `model_plus` false and an on-die temperature `q` (an `int32_t`, in quarter
degrees), the cycle reads the die temperature and the battery, assembles the reading from the
temperature `25 * q` in `int32_t` arithmetic (exactly `25 * q` when that fits), pressure 0,
humidity 0 and twelve zero acceleration values, then encodes and broadcasts by mode (in HighRes
the Raw4Accel encoder is handed the all-zero sample buffer) and feeds the watchdog. Its encode,
broadcast and feed steps are those of a full-hardware cycle in the same mode. -/
theorem reduced_hardware_cycle (env : Env) (x x' : Extern) (s : State)
    (hm : s.model_plus = false)
    (hq : -(2 ^ 31) ≤ x.sd_temp_get ∧ x.sd_temp_get < 2 ^ 31) :
    (main_timer_handler env x s).trace
      = [Event.sd_temp_get, Event.getBattery,
         Event.parseSensorData (toInt32 (25 * x.sd_temp_get)) 0 0 (x.getBattery % 2 ^ 16)
           (List.replicate 12 0)]
        ++ (if s.highres then
              [Event.encodeToRaw4AccelFormat s.data_buffer (List.replicate 32 zeroSample) 32,
               Event.bluetooth_set_manufacturer_data
                 (env.encodeToRaw4AccelFormat s.data_buffer (List.replicate 32 zeroSample) 32)
                 RAW_DATA_LENGTH]
            else
              [Event.encodeToUrlDataFromat s.url_buffer URL_BASE_LENGTH
                 (env.parseSensorData s.data (toInt32 (25 * x.sd_temp_get)) 0 0
                   (x.getBattery % 2 ^ 16) (List.replicate 12 0)),
               Event.bluetooth_set_eddystone_url
                 (env.encodeToUrlDataFromat s.url_buffer URL_BASE_LENGTH
                   (env.parseSensorData s.data (toInt32 (25 * x.sd_temp_get)) 0 0
                     (x.getBattery % 2 ^ 16) (List.replicate 12 0)))
                 (URL_BASE_LENGTH + URL_DATA_LENGTH)])
        ++ [Event.watchdog_feed]
    ∧ (-(2 ^ 31) ≤ 25 * x.sd_temp_get ∧ 25 * x.sd_temp_get < 2 ^ 31 →
        toInt32 (25 * x.sd_temp_get) = 25 * x.sd_temp_get)
    ∧ (List.replicate 32 zeroSample).headD zeroSample = ⟨⟨0, 0, 0⟩⟩
    ∧ (main_timer_handler env x s).trace.filterMap Event.step
        = (main_timer_handler env x' { s with model_plus := true }).trace.filterMap
            Event.step := by
  have hq' : toInt32 x.sd_temp_get = x.sd_temp_get := toInt32_of_range _ hq.1 hq.2
  have hc : x.sd_temp_get * 25 = 25 * x.sd_temp_get := Int.mul_comm _ _
  refine ⟨?_, fun h => toInt32_of_range _ h.1 h.2, rfl, ?_⟩
  · unfold main_timer_handler readSensors updateAdvertisement
    cases hh : s.highres <;> simp [hm, hh, hq', hc, BUFFER_ELEMENTS]
  · unfold main_timer_handler readSensors updateAdvertisement
    cases hh : s.highres <;> simp [hm, hh, Event.step]

/-- Witness for C8: boot on reduced hardware, 90 quarter degrees on the die: the reading
carries 2250 hundredths of a degree. -/
theorem reduced_hardware_cycle_witness :
    (initState false).model_plus = false ∧
    (-(2 ^ 31) ≤ fifo4.sd_temp_get ∧ fifo4.sd_temp_get < 2 ^ 31) ∧
    (main_timer_handler env250 fifo4 (initState false)).trace
      = [Event.sd_temp_get, Event.getBattery,
         Event.parseSensorData 2250 0 0 3000 (List.replicate 12 0),
         Event.encodeToRaw4AccelFormat (initState false).data_buffer
           (List.replicate 32 zeroSample) 32,
         Event.bluetooth_set_manufacturer_data (initState false).data_buffer RAW_DATA_LENGTH,
         Event.watchdog_feed] :=
  ⟨rfl, by decide,
    (reduced_hardware_cycle env250 fifo4 fifo4 (initState false) rfl (by decide)).1⟩

/-- C9: every run of `main_timer_handler` feeds the watchdog exactly once, as its last call,
right after the single payload request of the run, in both modes and on both the full-sensor
and the reduced-sensor path. -/
theorem cycle_feeds_watchdog_once (env : Env) (x : Extern) (s : State) :
    (main_timer_handler env x s).trace.count Event.watchdog_feed = 1
    ∧ (main_timer_handler env x s).trace.filter (fun e => e.isPayload || e.isFeed)
        = [if s.highres then
              Event.bluetooth_set_manufacturer_data
                (main_timer_handler env x s).state.data_buffer RAW_DATA_LENGTH
            else
              Event.bluetooth_set_eddystone_url
                (main_timer_handler env x s).state.url_buffer
                (URL_BASE_LENGTH + URL_DATA_LENGTH),
           Event.watchdog_feed]
    ∧ (main_timer_handler env x s).trace.reverse.take 2
        = [Event.watchdog_feed,
           if s.highres then
              Event.bluetooth_set_manufacturer_data
                (main_timer_handler env x s).state.data_buffer RAW_DATA_LENGTH
            else
              Event.bluetooth_set_eddystone_url
                (main_timer_handler env x s).state.url_buffer
                (URL_BASE_LENGTH + URL_DATA_LENGTH)] := by
  unfold main_timer_handler readSensors updateAdvertisement
  cases hm : s.model_plus <;> cases hh : s.highres <;>
    simp [hm, hh, Event.isPayload, Event.isFeed]

/-- C10 as stated fails: after boot and one accelerometer interrupt the counter is 1, and it
is still 1 after a run of `main_timer_handler`. -/
theorem acceleration_events_reset_counterexample :
    (lis2dh12_int2_handler (initState true)).1.acceleration_events = 1 ∧
    (main_timer_handler env250 fifo4
        (lis2dh12_int2_handler (initState true)).1).state.acceleration_events = 1 ∧
    (main_timer_handler env250 fifo4
        (lis2dh12_int2_handler (initState true)).1).state.acceleration_events ≠ 0 := by
  decide

/-- C10 (amended): `lis2dh12_int2_handler` increments `acceleration_events` by one per event
(as a `uint16_t`, wrapping at 65536) and returns `NRF_SUCCESS`; no handler resets the counter:
for every state, `main_timer_handler` and `change_mode` leave it at the value it had. -/
theorem acceleration_events_kept (env : Env) (now now2 : Nat) (x : Extern) (s : State) :
    (lis2dh12_int2_handler s).1.acceleration_events = (s.acceleration_events + 1) % 2 ^ 16
    ∧ (lis2dh12_int2_handler s).2 = NRF_SUCCESS
    ∧ (main_timer_handler env x s).state.acceleration_events = s.acceleration_events
    ∧ (change_mode env now now2 x s).state.acceleration_events = s.acceleration_events := by
  have hmain : ∀ s' : State,
      (main_timer_handler env x s').state.acceleration_events = s'.acceleration_events := by
    intro s'
    unfold main_timer_handler
    cases hh : s'.highres <;> simp [hh]
  refine ⟨rfl, rfl, hmain s, ?_⟩
  by_cases h : sub64 now s.debounce < env.DEBOUNCE_THRESHOLD
  · rw [change_mode_ignored env now now2 x s h]
  · rw [change_mode_accepted env now now2 x s h, hmain]

end RuuviAccel4
